import Mathlib

/-!
Verification of the asset ingestion and deduplication pipeline of the
immich server, as implemented by
`server/apps/immich/src/api-v1/asset/asset.controller.ts`.

The controller code (uploadFile, lines 75-124; deleteAsset, lines 225-249)
is embedded shallowly below.  The service functions it calls
(`calculateChecksum`, `createUserAsset`, `getAssetByChecksum`,
`getAssetById`, `deleteAssetById` from asset.service.ts), the bull queue
and the background-task cleanup queue are not part of the provided
sources; they are modelled from the specification, as noted on each
definition.
-/

namespace Immich

/-- Content digests; modelled as raw byte sequences. -/
abbrev Checksum := List Nat

/-- Modelled from the spec: the Content Hasher (asset.service.ts
calculateChecksum is not in the provided sources).  The spec requires a
deterministic fingerprint of the file bytes (identical bytes give an
identical digest); it is modelled as the identity fingerprint on the
byte sequence. -/
def calculateChecksum (bytes : List Nat) : Checksum := bytes

/-- An Asset row of the registry.  Fields follow the AssetEntity columns
the controller uses: id, ownerId (userId), checksum, originalPath,
mimeType, plus the soft-delete flag of the spec data model. -/
structure Asset where
  id : Nat
  userId : String
  checksum : Checksum
  originalPath : String
  mimeType : String
  deleted : Bool
deriving DecidableEq, Repr

/-- The asset registry: the rows of the assets table. -/
abbrev AssetDb := List Asset

/-- The row predicate of the uniqueness constraint UQ_userid_checksum:
same owner, same digest, not soft-deleted. -/
def ownerChecksumMatch (userId : String) (c : Checksum) (a : Asset) : Bool :=
  a.userId == userId && a.checksum == c && !a.deleted

/-- Modelled from the spec: asset.service.ts getAssetByChecksum is not in
the provided sources; per the spec it reads back the existing Asset for
the (owner, digest) pair. -/
def getAssetByChecksum (db : AssetDb) (userId : String) (c : Checksum) : Option Asset :=
  db.find? (ownerChecksumMatch userId c)

/-- Exceptions the try block of uploadFile can raise. -/
inductive UploadErr
  | queryFailed (constraint : String)
  | assetNotCreated
  | enqueueFailed (msg : String)
  | serviceOther (msg : String)
deriving DecidableEq, Repr

/-- Fault injection for the asset service insert: no fault, a falsy
return value, or a storage failure other than the uniqueness
violation. -/
inductive InsertFault
  | noFault
  | returnFalsy
  | otherError (msg : String)
deriving DecidableEq, Repr

/-- Fault injection for the content hasher (line 81). -/
inductive HashFault
  | noFault
  | ioError (msg : String)
deriving DecidableEq, Repr

/-- Modelled from the spec: asset.service.ts createUserAsset is not in
the provided sources.  Per the spec the resolver attempts the insert
with the uniqueness constraint on (owner, digest) enforced by the store
and no existence pre-check: a conflicting row makes the insert fail
with QueryFailedError and constraint UQ_userid_checksum.  The fault
argument injects the two other service outcomes the controller
distinguishes: a falsy result and a non-uniqueness storage error. -/
def createUserAsset (db : AssetDb) (nextId : Nat) (userId originalPath mimeType : String)
    (c : Checksum) (fault : InsertFault) : Except UploadErr (AssetDb × Option Asset) :=
  match fault with
  | .otherError m => .error (.serviceOther m)
  | _ =>
    match getAssetByChecksum db userId c with
    | some _ => .error (.queryFailed "UQ_userid_checksum")
    | none =>
      match fault with
      | .returnFalsy => .ok (db, none)
      | _ =>
        let a : Asset :=
          { id := nextId, userId := userId, checksum := c,
            originalPath := originalPath, mimeType := mimeType, deleted := false }
        .ok (db ++ [a], some a)

/-- Name of the single processor the controller submits jobs for
(assetUploadedProcessorName from job-name.constant.ts, imported by the
controller; treated as an opaque job name). -/
def assetUploadedProcessorName : String := "asset-uploaded"

/-- A job submitted to the assetUploadedQueue: processor name, payload
(asset and original file name) and the bull jobId option. -/
structure EnqueuedJob where
  name : String
  asset : Asset
  fileName : String
  jobId : Nat
deriving DecidableEq, Repr

/-- Modelled from the spec: the bull queue (not in the provided sources)
deduplicates by job key — adding a job whose jobId is already present is
a no-op rather than a second independent unit of work. -/
def queueAdd (q : List EnqueuedJob) (j : EnqueuedJob) : List EnqueuedJob :=
  if q.any (fun k => k.jobId == j.jobId) then q else q ++ [j]

/-- The state the controller acts on: the asset registry, the id
generator of the store, the assetUploadedQueue contents, and the file
paths handed to backgroundTaskService.deleteFileOnDisk (the cleanup
queue). -/
structure SysState where
  db : AssetDb
  nextId : Nat
  jobs : List EnqueuedJob
  cleanup : List String
deriving DecidableEq, Repr

/-- Observable outcome of uploadFile: a 201 with the new asset id, a 200
with the existing asset id (the duplicate signal, line 117), a
BadRequestException, or an exception that escapes the handler (raised
before the try block, or inside the catch block itself). -/
inductive UploadResponse
  | created (assetId : Nat)
  | duplicate (assetId : Nat)
  | badRequest (msg : String)
  | uncaught (msg : String)
deriving DecidableEq, Repr

/-- The duplicate flag of the upload response (status 200 instead of
201, line 117 of the controller). -/
def UploadResponse.isDuplicate : UploadResponse → Bool
  | .duplicate _ => true
  | _ => false

/-- Lines 83-107 of the controller: the try block.  createUserAsset is
called; a falsy result schedules the temp file for deletion (lines
93-97) and throws BadRequestException (line 98, caught by the same
try); otherwise the job is added with jobId = savedAsset.id (lines
101-105) and the 201 response is returned (line 107). -/
def uploadTryBlock (st : SysState) (userId filePath mimeType origName : String)
    (c : Checksum) (insertFault : InsertFault) (enqueueFails : Bool) :
    SysState × Except UploadErr UploadResponse :=
  match createUserAsset st.db st.nextId userId filePath mimeType c insertFault with
  | .error e => (st, .error e)
  | .ok (db2, none) =>
    ({ st with db := db2, cleanup := st.cleanup ++ [filePath] }, .error .assetNotCreated)
  | .ok (db2, some saved) =>
    if enqueueFails then
      ({ st with db := db2, nextId := st.nextId + 1 }, .error (.enqueueFailed "add"))
    else
      ({ st with db := db2, nextId := st.nextId + 1,
                 jobs := queueAdd st.jobs
                   { name := assetUploadedProcessorName, asset := saved,
                     fileName := origName, jobId := saved.id } },
       .ok (.created saved.id))

/-- Lines 108-123 of the controller: the catch block.  deleteFileOnDisk
is scheduled first (lines 109-113); a QueryFailedError with constraint
UQ_userid_checksum triggers the getAssetByChecksum fallback and the 200
response (lines 115-119); everything else is logged and rethrown as
BadRequestException (lines 121-122). -/
def uploadCatchBlock (st : SysState) (userId filePath : String) (c : Checksum)
    (e : UploadErr) : SysState × UploadResponse :=
  let st2 : SysState := { st with cleanup := st.cleanup ++ [filePath] }
  match e with
  | .queryFailed con =>
    if con == "UQ_userid_checksum" then
      match getAssetByChecksum st2.db userId c with
      | some existed => (st2, .duplicate existed.id)
      | none => (st2, .uncaught "existedAsset is undefined")
    else (st2, .badRequest "Error uploading file")
  | _ => (st2, .badRequest "Error uploading file")

/-- AssetController.uploadFile, lines 75-124.  The checksum is computed
at line 81, before the try block: a hasher failure propagates without
reaching either the insert or the cleanup of the catch block. -/
def uploadFile (st : SysState) (userId filePath mimeType origName : String)
    (bytes : List Nat) (hashFault : HashFault) (insertFault : InsertFault)
    (enqueueFails : Bool) : SysState × UploadResponse :=
  match hashFault with
  | .ioError m => (st, .uncaught m)
  | .noFault =>
    let c := calculateChecksum bytes
    match uploadTryBlock st userId filePath mimeType origName c insertFault enqueueFails with
    | (st2, .ok r) => (st2, r)
    | (st2, .error e) => uploadCatchBlock st2 userId filePath c e

/-- uploadFile on the fault-free path: the hasher, the store and the
queue all behave normally. -/
def upload (st : SysState) (userId filePath mimeType origName : String)
    (bytes : List Nat) : SysState × UploadResponse :=
  uploadFile st userId filePath mimeType origName bytes .noFault .noFault false

/-- Per-id status of the delete operation
(DeleteAssetStatusEnum; the dto file is not in the provided sources,
statuses taken from the spec delete contract). -/
inductive DeleteAssetStatus
  | success
  | notFound
  | forbidden
deriving DecidableEq, Repr

/-- One entry of the DeleteAssetResponseDto list. -/
structure DeleteAssetResult where
  id : Nat
  status : DeleteAssetStatus
deriving DecidableEq, Repr

/-- Modelled from the spec: asset.service.ts getAssetById is not in the
provided sources; it returns the single asset with the given id.  The
spec does not restrict this lookup to the assets of the caller. -/
def getAssetById (db : AssetDb) (assetId : Nat) : Option Asset :=
  db.find? (fun a => a.id == assetId && !a.deleted)

/-- Modelled from the spec: asset.service.ts deleteAssetById is not in
the provided sources.  Per the spec delete contract it yields a per-id
status from Success, NotFound and Forbidden, soft-deleting the matching
assets owned by the caller. -/
def deleteAssetById (db : AssetDb) (userId : String) (ids : List Nat) :
    AssetDb × List DeleteAssetResult :=
  ids.foldl
    (fun acc i =>
      match acc.1.find? (fun a => a.id == i && !a.deleted) with
      | none => (acc.1, acc.2 ++ [⟨i, .notFound⟩])
      | some a =>
        if a.userId == userId then
          (acc.1.map (fun b => if b.id == i then { b with deleted := true } else b),
           acc.2 ++ [⟨i, .success⟩])
        else (acc.1, acc.2 ++ [⟨i, .forbidden⟩]))
    (db, [])

/-- AssetController.deleteAsset, lines 225-249.  deleteAssetList
collects the non-falsy getAssetById results (lines 230-238), the
per-id statuses come from deleteAssetById (line 240), and the whole
deleteAssetList is handed to deleteFileOnDisk (line 246): the
Array.filter call of lines 242-244 discards its return value, so no
entry is ever removed from the list before it is handed over. -/
def deleteAsset (st : SysState) (userId : String) (ids : List Nat) :
    SysState × List DeleteAssetResult :=
  let deleteAssetList := ids.filterMap (fun i => getAssetById st.db i)
  let r := deleteAssetById st.db userId ids
  let _ := r.2.map (fun res =>
    deleteAssetList.filter (fun a => a.id == res.id && res.status == .success))
  ({ st with db := r.1,
             cleanup := st.cleanup ++ deleteAssetList.map (fun a => a.originalPath) },
   r.2)

/-! ## Helper lemmas -/

/-- If no row at all has the (owner, digest) pair, the constraint
predicate finds nothing. -/
theorem find?_none_of_filter_nil (l : AssetDb) (u : String) (c : Checksum)
    (h : l.filter (fun a => a.userId == u && a.checksum == c) = []) :
    l.find? (ownerChecksumMatch u c) = none := by
  rw [List.find?_eq_none]
  intro x hx hpx
  have hall := List.filter_eq_nil_iff.mp h x hx
  simp only [ownerChecksumMatch, Bool.and_eq_true, beq_iff_eq] at hpx
  simp only [Bool.and_eq_true, beq_iff_eq] at hall
  exact hall ⟨hpx.1.1, hpx.1.2⟩

/-- A freshly inserted row satisfies its own constraint predicate. -/
theorem ownerChecksumMatch_self (u : String) (c : Checksum) (i : Nat) (fp mt : String) :
    ownerChecksumMatch u c
      { id := i, userId := u, checksum := c, originalPath := fp,
        mimeType := mt, deleted := false } = true := by
  simp [ownerChecksumMatch]

/-! ## Claims -/

/-- C1: for every owner and byte sequence, uploading the bytes twice as
that owner yields exactly one Asset whose digest is the checksum of the
bytes and whose owner is that owner; the second upload returns the same
asset id as the first and reports the duplicate outcome rather than an
error. -/
theorem upload_twice_same_owner_dedup (st : SysState)
    (u fp1 mt1 n1 fp2 mt2 n2 : String) (bytes : List Nat)
    (h : st.db.filter (fun a => a.userId == u && a.checksum == calculateChecksum bytes) = []) :
    (upload st u fp1 mt1 n1 bytes).2 = .created st.nextId ∧
    (upload (upload st u fp1 mt1 n1 bytes).1 u fp2 mt2 n2 bytes).2 = .duplicate st.nextId ∧
    ((upload (upload st u fp1 mt1 n1 bytes).1 u fp2 mt2 n2 bytes).2).isDuplicate = true ∧
    ((upload (upload st u fp1 mt1 n1 bytes).1 u fp2 mt2 n2 bytes).1.db.filter
        (fun a => a.userId == u && a.checksum == calculateChecksum bytes)).length = 1 := by
  have hf : getAssetByChecksum st.db u (calculateChecksum bytes) = none :=
    find?_none_of_filter_nil st.db u (calculateChecksum bytes) h
  have h1 : upload st u fp1 mt1 n1 bytes =
      ({ db := st.db ++
           [{ id := st.nextId, userId := u, checksum := calculateChecksum bytes,
              originalPath := fp1, mimeType := mt1, deleted := false }],
         nextId := st.nextId + 1,
         jobs := queueAdd st.jobs
           { name := assetUploadedProcessorName,
             asset := { id := st.nextId, userId := u, checksum := calculateChecksum bytes,
                        originalPath := fp1, mimeType := mt1, deleted := false },
             fileName := n1, jobId := st.nextId },
         cleanup := st.cleanup }, .created st.nextId) := by
    simp [upload, uploadFile, uploadTryBlock, createUserAsset, hf]
  have hf2 : getAssetByChecksum
      (st.db ++
        [{ id := st.nextId, userId := u, checksum := calculateChecksum bytes,
           originalPath := fp1, mimeType := mt1, deleted := false }]) u
      (calculateChecksum bytes) =
      some { id := st.nextId, userId := u, checksum := calculateChecksum bytes,
             originalPath := fp1, mimeType := mt1, deleted := false } := by
    simp only [getAssetByChecksum] at hf ⊢
    simp [List.find?_append, hf, ownerChecksumMatch_self]
  refine ⟨by rw [h1], ?_, ?_, ?_⟩
  · rw [h1]
    simp [upload, uploadFile, uploadTryBlock, createUserAsset, hf2, uploadCatchBlock]
  · rw [h1]
    simp [upload, uploadFile, uploadTryBlock, createUserAsset, hf2, uploadCatchBlock,
      UploadResponse.isDuplicate]
  · rw [h1]
    simp [upload, uploadFile, uploadTryBlock, createUserAsset, hf2, uploadCatchBlock,
      List.filter_append, h]

/-- Witness for C1 at a concrete input: owner u1 uploads the bytes
[1, 2] twice into an empty registry. -/
theorem upload_twice_same_owner_dedup_witness :
    (upload (⟨[], 0, [], []⟩ : SysState) "u1" "p1" "m" "f1" [1, 2]).2 = .created 0 ∧
    (upload (upload (⟨[], 0, [], []⟩ : SysState) "u1" "p1" "m" "f1" [1, 2]).1
      "u1" "p2" "m" "f2" [1, 2]).2 = .duplicate 0 ∧
    ((upload (upload (⟨[], 0, [], []⟩ : SysState) "u1" "p1" "m" "f1" [1, 2]).1
      "u1" "p2" "m" "f2" [1, 2]).2).isDuplicate = true ∧
    ((upload (upload (⟨[], 0, [], []⟩ : SysState) "u1" "p1" "m" "f1" [1, 2]).1
      "u1" "p2" "m" "f2" [1, 2]).1.db.filter
        (fun a => a.userId == "u1" && a.checksum == calculateChecksum [1, 2])).length = 1 :=
  upload_twice_same_owner_dedup ⟨[], 0, [], []⟩ "u1" "p1" "m" "f1" "p2" "m" "f2" [1, 2] rfl

/-- C2: the upload path always attempts the insert first; the duplicate
outcome occurs exactly when the insert fails with the uniqueness
violation on (owner, digest) — in the store model, exactly when a
conflicting row already exists and no other storage failure precedes
the constraint check — in which case the existing asset for the pair is
read back and returned as the duplicate; any other insert failure makes
the upload fail with a BadRequestException. -/
theorem upload_insert_conflict_fallback (st : SysState) (u fp mt n : String)
    (bytes : List Nat) (fault : InsertFault) (enq : Bool) :
    ((∃ i, (uploadFile st u fp mt n bytes .noFault fault enq).2 = .duplicate i) ↔
      createUserAsset st.db st.nextId u fp mt (calculateChecksum bytes) fault =
        .error (.queryFailed "UQ_userid_checksum")) ∧
    (∀ a, getAssetByChecksum st.db u (calculateChecksum bytes) = some a →
      createUserAsset st.db st.nextId u fp mt (calculateChecksum bytes) fault =
        .error (.queryFailed "UQ_userid_checksum") →
      (uploadFile st u fp mt n bytes .noFault fault enq).2 = .duplicate a.id) ∧
    (∀ m, fault = .otherError m →
      (uploadFile st u fp mt n bytes .noFault fault enq).2 =
        .badRequest "Error uploading file") := by
  cases fault <;>
    rcases hfind : getAssetByChecksum st.db u (calculateChecksum bytes) with _ | a <;>
      cases enq <;>
        simp [uploadFile, uploadTryBlock, createUserAsset, uploadCatchBlock, hfind]

/-- Witness for C2 at a concrete input: the registry already holds an
asset with id 9 for owner u1 and digest [3, 4]; uploading those bytes
as u1 hits the constraint and returns the read-back asset as the
duplicate. -/
theorem upload_insert_conflict_fallback_witness :
    (uploadFile
        (⟨[{ id := 9, userId := "u1", checksum := [3, 4], originalPath := "q",
             mimeType := "m", deleted := false }], 5, [], []⟩ : SysState)
        "u1" "p" "m" "f" [3, 4] .noFault .noFault false).2 = .duplicate 9 :=
  (upload_insert_conflict_fallback
      ⟨[{ id := 9, userId := "u1", checksum := [3, 4], originalPath := "q",
          mimeType := "m", deleted := false }], 5, [], []⟩
      "u1" "p" "m" "f" [3, 4] .noFault false).2.1
    { id := 9, userId := "u1", checksum := [3, 4], originalPath := "q",
      mimeType := "m", deleted := false } rfl rfl

/-- C3 counterexample: the checksum is computed at line 81, before the
try block, so a hasher failure propagates without the temporary path
being handed to cleanup and without it being promoted: with an empty
initial state the cleanup queue stays empty and the registry stays
empty, contradicting the claim that the transient path is always
removed or promoted. -/
theorem hash_failure_no_cleanup_cex :
    ¬(("tmp" ∈ (uploadFile (⟨[], 0, [], []⟩ : SysState) "u1" "tmp" "m" "f" [1]
          (.ioError "EIO") .noFault false).1.cleanup) ∨
      ((uploadFile (⟨[], 0, [], []⟩ : SysState) "u1" "tmp" "m" "f" [1]
          (.ioError "EIO") .noFault false).1.db.any
        (fun a => a.originalPath == "tmp")) = true) := by
  decide

/-- C3 amended: once the checksum step has succeeded, every outcome of
the upload either promotes the temporary path into the new Asset row or
hands the path to the cleanup queue; a failure of the content hasher
itself propagates without the path being handed to cleanup. -/
theorem upload_cleanup_after_hash (st : SysState) (u fp mt n : String)
    (bytes : List Nat) (fault : InsertFault) (enq : Bool) :
    (∃ i, (uploadFile st u fp mt n bytes .noFault fault enq).2 = .created i ∧
      ((uploadFile st u fp mt n bytes .noFault fault enq).1.db.any
        (fun a => a.id == i && a.originalPath == fp)) = true) ∨
    fp ∈ (uploadFile st u fp mt n bytes .noFault fault enq).1.cleanup := by
  cases fault <;>
    rcases hfind : getAssetByChecksum st.db u (calculateChecksum bytes) with _ | a <;>
      cases enq <;>
        simp [uploadFile, uploadTryBlock, createUserAsset, uploadCatchBlock, hfind,
          List.any_append]

/-- C4 counterexample: a successful upload of new content into an empty
state submits exactly one job — the asset-uploaded job — not one job
per processor kind (thumbnail, metadata, ml-tag: three jobs). -/
theorem upload_single_job_cex :
    (upload (⟨[], 7, [], []⟩ : SysState) "u1" "p" "m" "f" [1, 2, 3]).2 = .created 7 ∧
    (upload (⟨[], 7, [], []⟩ : SysState) "u1" "p" "m" "f" [1, 2, 3]).1.jobs.map
      (fun j => j.name) = [assetUploadedProcessorName] ∧
    ¬((upload (⟨[], 7, [], []⟩ : SysState) "u1" "p" "m" "f" [1, 2, 3]).1.jobs.length = 3) := by
  decide

/-- On a created outcome, the job queue change of the upload is exactly
one queueAdd of the asset-uploaded job keyed by the new asset id. -/
theorem upload_created_jobs_eq (st : SysState) (u fp mt n : String)
    (bytes : List Nat) (i : Nat)
    (h : (upload st u fp mt n bytes).2 = .created i) :
    (upload st u fp mt n bytes).1.jobs = queueAdd st.jobs
      { name := assetUploadedProcessorName,
        asset := { id := i, userId := u, checksum := calculateChecksum bytes,
                   originalPath := fp, mimeType := mt, deleted := false },
        fileName := n, jobId := i } := by
  rcases hfind : getAssetByChecksum st.db u (calculateChecksum bytes) with _ | a
  · simp [upload, uploadFile, uploadTryBlock, createUserAsset, hfind] at h ⊢
    rw [← h]
  · simp [upload, uploadFile, uploadTryBlock, createUserAsset, uploadCatchBlock, hfind] at h

/-- C4 amended: when a new Asset is successfully created by an upload,
exactly one ProcessingJob — the asset-uploaded job — is submitted to
the queue, keyed by the new Asset id (jobId = asset id); the per-kind
fan-out is not performed by the upload path. -/
theorem upload_enqueues_single_job (st : SysState) (u fp mt n : String)
    (bytes : List Nat) (i : Nat)
    (h : (upload st u fp mt n bytes).2 = .created i) :
    (upload st u fp mt n bytes).1.jobs = queueAdd st.jobs
      { name := assetUploadedProcessorName,
        asset := { id := i, userId := u, checksum := calculateChecksum bytes,
                   originalPath := fp, mimeType := mt, deleted := false },
        fileName := n, jobId := i } :=
  upload_created_jobs_eq st u fp mt n bytes i h

/-- Witness for C4 amended at a concrete input. -/
theorem upload_enqueues_single_job_witness :
    (upload (⟨[], 7, [], []⟩ : SysState) "u1" "p" "m" "f" [1]).1.jobs = queueAdd []
      { name := assetUploadedProcessorName,
        asset := { id := 7, userId := "u1", checksum := calculateChecksum [1],
                   originalPath := "p", mimeType := "m", deleted := false },
        fileName := "f", jobId := 7 } :=
  upload_enqueues_single_job ⟨[], 7, [], []⟩ "u1" "p" "m" "f" [1] 7 rfl

/-- C5 counterexample: the queue.add call sits inside the try block, so
when the enqueue fails after the Asset row was durably inserted the
catch block runs: the promoted file path is handed to the cleanup
queue and a BadRequestException is returned instead of the new asset
id — contradicting the claim that the failure is only logged, the id is
still returned and the promoted file is not deleted. -/
theorem enqueue_failure_aborts_cex :
    (uploadFile (⟨[], 7, [], []⟩ : SysState) "u1" "p" "m" "f" [1]
        .noFault .noFault true).2 = .badRequest "Error uploading file" ∧
    (uploadFile (⟨[], 7, [], []⟩ : SysState) "u1" "p" "m" "f" [1]
        .noFault .noFault true).1.cleanup = ["p"] ∧
    (uploadFile (⟨[], 7, [], []⟩ : SysState) "u1" "p" "m" "f" [1]
        .noFault .noFault true).1.db =
      [{ id := 7, userId := "u1", checksum := [1], originalPath := "p",
         mimeType := "m", deleted := false }] := by
  decide

/-- C5 amended: if the enqueue step fails after the new Asset row was
durably created, the catch block hands the promoted storage path to the
cleanup queue and rejects the upload with a BadRequestException; the
Asset row itself remains in the registry, but its id is not returned
and no job is submitted. -/
theorem enqueue_failure_behavior (st : SysState) (u fp mt n : String) (bytes : List Nat)
    (h : st.db.filter (fun a => a.userId == u && a.checksum == calculateChecksum bytes) = []) :
    (uploadFile st u fp mt n bytes .noFault .noFault true).2 =
      .badRequest "Error uploading file" ∧
    fp ∈ (uploadFile st u fp mt n bytes .noFault .noFault true).1.cleanup ∧
    (uploadFile st u fp mt n bytes .noFault .noFault true).1.db = st.db ++
      [{ id := st.nextId, userId := u, checksum := calculateChecksum bytes,
         originalPath := fp, mimeType := mt, deleted := false }] ∧
    (uploadFile st u fp mt n bytes .noFault .noFault true).1.jobs = st.jobs := by
  have hf : getAssetByChecksum st.db u (calculateChecksum bytes) = none :=
    find?_none_of_filter_nil st.db u (calculateChecksum bytes) h
  simp [uploadFile, uploadTryBlock, createUserAsset, uploadCatchBlock, hf]

/-- Witness for C5 amended at a concrete input. -/
theorem enqueue_failure_behavior_witness :
    (uploadFile (⟨[], 3, [], []⟩ : SysState) "u1" "pp" "m" "f" [2]
        .noFault .noFault true).2 = .badRequest "Error uploading file" ∧
    "pp" ∈ (uploadFile (⟨[], 3, [], []⟩ : SysState) "u1" "pp" "m" "f" [2]
        .noFault .noFault true).1.cleanup ∧
    (uploadFile (⟨[], 3, [], []⟩ : SysState) "u1" "pp" "m" "f" [2]
        .noFault .noFault true).1.db = [] ++
      [{ id := 3, userId := "u1", checksum := calculateChecksum [2],
         originalPath := "pp", mimeType := "m", deleted := false }] ∧
    (uploadFile (⟨[], 3, [], []⟩ : SysState) "u1" "pp" "m" "f" [2]
        .noFault .noFault true).1.jobs = [] :=
  enqueue_failure_behavior ⟨[], 3, [], []⟩ "u1" "pp" "m" "f" [2] rfl

/-- C6: when an upload resolves to a duplicate, no new job is submitted
(the job queue is unchanged), the temporary path is handed to cleanup,
the registry is unchanged, and the existing asset id is returned. -/
theorem duplicate_no_jobs_cleanup (st : SysState) (u fp mt n : String)
    (bytes : List Nat) (a : Asset)
    (h : getAssetByChecksum st.db u (calculateChecksum bytes) = some a) :
    (upload st u fp mt n bytes).2 = .duplicate a.id ∧
    (upload st u fp mt n bytes).1.jobs = st.jobs ∧
    fp ∈ (upload st u fp mt n bytes).1.cleanup ∧
    (upload st u fp mt n bytes).1.db = st.db := by
  simp [upload, uploadFile, uploadTryBlock, createUserAsset, uploadCatchBlock, h]

/-- Example asset used by concrete witnesses: id 4, owner u1, digest
[5], stored at path q. -/
def exAsset : Asset :=
  { id := 4, userId := "u1", checksum := [5], originalPath := "q",
    mimeType := "m", deleted := false }

/-- Example state used by concrete witnesses: a registry holding only
exAsset, empty queues. -/
def exState : SysState := ⟨[exAsset], 6, [], []⟩

/-- Witness for C6 at a concrete input: owner u1 re-uploads the bytes
[5] already held by exAsset. -/
theorem duplicate_no_jobs_cleanup_witness :
    (upload exState "u1" "tmp" "m" "f" [5]).2 = .duplicate 4 ∧
    (upload exState "u1" "tmp" "m" "f" [5]).1.jobs = [] ∧
    "tmp" ∈ (upload exState "u1" "tmp" "m" "f" [5]).1.cleanup ∧
    (upload exState "u1" "tmp" "m" "f" [5]).1.db = [exAsset] :=
  duplicate_no_jobs_cleanup exState "u1" "tmp" "m" "f" [5] exAsset rfl

/-- C7, evaluated at the failing input: asset 4 is owned by u1; caller
u2 requests its deletion.  The per-id status is Forbidden and the
registry row is untouched, yet the asset file path q is handed to the
cleanup queue, because the status filter of lines 242-244 discards its
result and the whole deleteAssetList reaches deleteFileOnDisk at line
246. -/
theorem delete_forbidden_schedules_file :
    deleteAsset exState "u2" [4] =
      (⟨[exAsset], 6, [], ["q"]⟩, [⟨4, .forbidden⟩]) := by
  decide

/-- C8: two different owners uploading byte-identical content each get
their own distinct Asset — the uniqueness key is the (owner id, digest)
pair — and the duplicate fallback lookup is scoped to the uploading
owner id together with the checksum. -/
theorem owner_isolation (st : SysState) (u1 u2 fp1 mt1 n1 fp2 mt2 n2 : String)
    (bytes : List Nat) (hu : u1 ≠ u2)
    (h1 : st.db.filter (fun a => a.userId == u1 && a.checksum == calculateChecksum bytes) = [])
    (h2 : st.db.filter (fun a => a.userId == u2 && a.checksum == calculateChecksum bytes) = []) :
    (upload st u1 fp1 mt1 n1 bytes).2 = .created st.nextId ∧
    (upload (upload st u1 fp1 mt1 n1 bytes).1 u2 fp2 mt2 n2 bytes).2 =
      .created (st.nextId + 1) ∧
    st.nextId ≠ st.nextId + 1 ∧
    ((upload (upload st u1 fp1 mt1 n1 bytes).1 u2 fp2 mt2 n2 bytes).1.db.any
      (fun a => a.id == st.nextId && a.userId == u1 &&
        a.checksum == calculateChecksum bytes)) = true ∧
    ((upload (upload st u1 fp1 mt1 n1 bytes).1 u2 fp2 mt2 n2 bytes).1.db.any
      (fun a => a.id == st.nextId + 1 && a.userId == u2 &&
        a.checksum == calculateChecksum bytes)) = true ∧
    (∀ (db : AssetDb) (u : String) (c : Checksum) (a : Asset),
      getAssetByChecksum db u c = some a → a.userId = u ∧ a.checksum = c) := by
  have hf1 : getAssetByChecksum st.db u1 (calculateChecksum bytes) = none :=
    find?_none_of_filter_nil st.db u1 (calculateChecksum bytes) h1
  have h1eq : upload st u1 fp1 mt1 n1 bytes =
      ({ db := st.db ++
           [{ id := st.nextId, userId := u1, checksum := calculateChecksum bytes,
              originalPath := fp1, mimeType := mt1, deleted := false }],
         nextId := st.nextId + 1,
         jobs := queueAdd st.jobs
           { name := assetUploadedProcessorName,
             asset := { id := st.nextId, userId := u1, checksum := calculateChecksum bytes,
                        originalPath := fp1, mimeType := mt1, deleted := false },
             fileName := n1, jobId := st.nextId },
         cleanup := st.cleanup }, .created st.nextId) := by
    simp [upload, uploadFile, uploadTryBlock, createUserAsset, hf1]
  have hbeq : (u1 == u2) = false := by
    simp [hu]
  have hf2 : getAssetByChecksum
      (st.db ++
        [{ id := st.nextId, userId := u1, checksum := calculateChecksum bytes,
           originalPath := fp1, mimeType := mt1, deleted := false }]) u2
      (calculateChecksum bytes) = none := by
    have hn : getAssetByChecksum st.db u2 (calculateChecksum bytes) = none :=
      find?_none_of_filter_nil st.db u2 (calculateChecksum bytes) h2
    simp only [getAssetByChecksum] at hn ⊢
    simp [List.find?_append, hn, ownerChecksumMatch, hbeq]
  refine ⟨by rw [h1eq], ?_, by omega, ?_, ?_, ?_⟩
  · rw [h1eq]
    simp [upload, uploadFile, uploadTryBlock, createUserAsset, hf2]
  · rw [h1eq]
    simp [upload, uploadFile, uploadTryBlock, createUserAsset, hf2, List.any_append]
  · rw [h1eq]
    simp [upload, uploadFile, uploadTryBlock, createUserAsset, hf2, List.any_append]
  · intro db u c a hfind
    have hp := List.find?_some hfind
    simp only [ownerChecksumMatch, Bool.and_eq_true, beq_iff_eq] at hp
    exact ⟨hp.1.1, hp.1.2⟩

/-- Witness for C8 at a concrete input: u1 and u2 both upload the bytes
[7] into an empty registry. -/
theorem owner_isolation_witness :
    (upload (⟨[], 0, [], []⟩ : SysState) "u1" "p1" "m" "f1" [7]).2 = .created 0 ∧
    (upload (upload (⟨[], 0, [], []⟩ : SysState) "u1" "p1" "m" "f1" [7]).1
      "u2" "p2" "m" "f2" [7]).2 = .created 1 ∧
    ((upload (upload (⟨[], 0, [], []⟩ : SysState) "u1" "p1" "m" "f1" [7]).1
      "u2" "p2" "m" "f2" [7]).1.db.any
      (fun a => a.id == 0 && a.userId == "u1" && a.checksum == calculateChecksum [7])) = true ∧
    ((upload (upload (⟨[], 0, [], []⟩ : SysState) "u1" "p1" "m" "f1" [7]).1
      "u2" "p2" "m" "f2" [7]).1.db.any
      (fun a => a.id == 0 + 1 && a.userId == "u2" && a.checksum == calculateChecksum [7])) = true :=
  have H := owner_isolation ⟨[], 0, [], []⟩ "u1" "u2" "p1" "m" "f1" "p2" "m" "f2" [7]
    (by decide) rfl rfl
  ⟨H.1, H.2.1, H.2.2.2.1, H.2.2.2.2.1⟩

/-- C9: the job key of the submitted processing job is the asset id
itself (the bull jobId option is savedAsset.id), and adding a job under
an already present jobId does not create a second unit of work. -/
theorem job_key_deterministic_idempotent (st : SysState) (u fp mt n : String)
    (bytes : List Nat) (i : Nat)
    (h : (upload st u fp mt n bytes).2 = .created i) :
    (upload st u fp mt n bytes).1.jobs = queueAdd st.jobs
      { name := assetUploadedProcessorName,
        asset := { id := i, userId := u, checksum := calculateChecksum bytes,
                   originalPath := fp, mimeType := mt, deleted := false },
        fileName := n, jobId := i } ∧
    (∀ (q : List EnqueuedJob) (j : EnqueuedJob),
      queueAdd (queueAdd q j) j = queueAdd q j) := by
  refine ⟨upload_created_jobs_eq st u fp mt n bytes i h, ?_⟩
  intro q j
  by_cases hq : (q.any fun k => k.jobId == j.jobId) = true
  · simp [queueAdd, hq]
  · simp [queueAdd, hq, List.any_append]

/-- Example job used by the C9 witness. -/
def exJob : EnqueuedJob :=
  { name := assetUploadedProcessorName, asset := exAsset, fileName := "f", jobId := 4 }

/-- Witness for C9 at a concrete input. -/
theorem job_key_deterministic_idempotent_witness :
    (upload (⟨[], 4, [], []⟩ : SysState) "u1" "p" "m" "f" [1]).1.jobs = queueAdd []
      { name := assetUploadedProcessorName,
        asset := { id := 4, userId := "u1", checksum := calculateChecksum [1],
                   originalPath := "p", mimeType := "m", deleted := false },
        fileName := "f", jobId := 4 } ∧
    queueAdd (queueAdd [] exJob) exJob = queueAdd [] exJob :=
  have H := job_key_deterministic_idempotent ⟨[], 4, [], []⟩ "u1" "p" "m" "f" [1] 4 rfl
  ⟨H.1, H.2 [] exJob⟩

/-- C10: when the asset service returns no asset from creation without
throwing, the upload is rejected with a BadRequestException, the
temporary path is handed to the background cleanup queue, no job is
submitted and the registry is unchanged. -/
theorem falsy_create_rejected (st : SysState) (u fp mt n : String) (bytes : List Nat)
    (h : getAssetByChecksum st.db u (calculateChecksum bytes) = none) :
    (uploadFile st u fp mt n bytes .noFault .returnFalsy false).2 =
      .badRequest "Error uploading file" ∧
    fp ∈ (uploadFile st u fp mt n bytes .noFault .returnFalsy false).1.cleanup ∧
    (uploadFile st u fp mt n bytes .noFault .returnFalsy false).1.jobs = st.jobs ∧
    (uploadFile st u fp mt n bytes .noFault .returnFalsy false).1.db = st.db := by
  simp [uploadFile, uploadTryBlock, createUserAsset, uploadCatchBlock, h]

/-- Witness for C10 at a concrete input. -/
theorem falsy_create_rejected_witness :
    (uploadFile (⟨[], 0, [], []⟩ : SysState) "u1" "tmp" "m" "f" [1]
        .noFault .returnFalsy false).2 = .badRequest "Error uploading file" ∧
    "tmp" ∈ (uploadFile (⟨[], 0, [], []⟩ : SysState) "u1" "tmp" "m" "f" [1]
        .noFault .returnFalsy false).1.cleanup ∧
    (uploadFile (⟨[], 0, [], []⟩ : SysState) "u1" "tmp" "m" "f" [1]
        .noFault .returnFalsy false).1.jobs = [] ∧
    (uploadFile (⟨[], 0, [], []⟩ : SysState) "u1" "tmp" "m" "f" [1]
        .noFault .returnFalsy false).1.db = [] :=
  falsy_create_rejected ⟨[], 0, [], []⟩ "u1" "tmp" "m" "f" [1] rfl

end Immich
